import Mathlib

/-!
Verification development for the PitchCraft desktop application.

The development shallowly embeds the two core components of the repository:

* the backend process supervisor of src/electron/main.js
  (checkHealth, waitForBackend, startBackend and the whenReady startup
  sequence), and
* the generation orchestrator of the frontend
  (the useGeneration hook: cancel, clarify, generate, iterate; the
  useChatSessions hook: addMessage, updateSession, deleteSession; and the
  handleGenerate driver of ChatLayout.tsx).

Network requests are modelled by their observable outcomes (success payload,
cancellation, timeout, error), and each orchestrator routine is embedded as a
function from those outcomes to the ordered list of session and phase
mutations it performs.
-/

namespace PitchCraft

-- ==========================================================================
-- Data model (src/frontend/src/types/chat.ts)
-- ==========================================================================

/-- A clarifying question, as in the ClarifyQuestion interface. -/
structure ClarifyQuestion where
  id : String
  question : String
  hint : String
deriving DecidableEq, Repr

/-- One entry of a quality report history (QualityLoopEntry). -/
structure QualityLoopEntry where
  attempt : Nat
  verdict : String
  reasoning : String
deriving DecidableEq, Repr

/-- Preview metadata attached to a preview message (PreviewData). -/
structure PreviewData where
  downloadId : String
  filename : String
  totalSlides : Nat
deriving DecidableEq, Repr

/-- The role of a chat message (MessageRole). -/
inductive MessageRole
  | user
  | assistant
  | thinking
  | preview
  | system
deriving DecidableEq, Repr

/-- A chat message (ChatMessage).  The id and timestamp fields that
makeMessage attaches are generated per message and play no role in the
properties below, so the embedding omits them. -/
structure ChatMessage where
  role : MessageRole
  content : String
  thinkingData : Option QualityLoopEntry := none
  previewData : Option PreviewData := none
  clarifyQuestions : Option (List ClarifyQuestion) := none
deriving DecidableEq, Repr

/-- Session settings (SessionSettings). -/
structure SessionSettings where
  templateId : Option String
  templateName : Option String
  purpose : String
  language : String
deriving DecidableEq, Repr

/-- A conversation session (ChatSession). -/
structure ChatSession where
  id : String
  title : String
  createdAt : Nat
  updatedAt : Nat
  messages : List ChatMessage
  settings : SessionSettings
  lastDownloadId : Option String := none
  lastFilename : Option String := none
deriving DecidableEq, Repr

/-- The orchestrator phase (GenerationPhase). -/
inductive GenerationPhase
  | idle
  | clarifying
  | generating
  | rendering
  | converting
  | done
  | error
deriving DecidableEq, Repr

-- ==========================================================================
-- Session store (useChatSessions in src/frontend/src/hooks/useChatSessions)
-- ==========================================================================

/-- The state held by the useChatSessions hook. -/
structure StoreState where
  sessions : List ChatSession
  activeSessionId : Option String
deriving DecidableEq, Repr

/-- addMessage: append a message to the session with the given id, bump its
updatedAt, and auto-title it from the first user message. -/
def addMessage (sessionId : String) (message : ChatMessage) (now : Nat)
    (sessions : List ChatSession) : List ChatSession :=
  sessions.map fun s =>
    if s.id = sessionId then
      let updated := { s with messages := s.messages ++ [message], updatedAt := now }
      if s.title = "New Chat" ∧ message.role = .user ∧ message.content.trim ≠ "" then
        { updated with title := (message.content.trim.take 50) }
      else updated
    else s

/-- The updateSession call made by generate and iterate: store the download
id and filename of the produced artifact on the session. -/
def updateSessionArtifact (sessionId : String) (downloadId filename : String) (now : Nat)
    (sessions : List ChatSession) : List ChatSession :=
  sessions.map fun s =>
    if s.id = sessionId then
      { s with lastDownloadId := some downloadId, lastFilename := some filename,
               updatedAt := now }
    else s

/-- deleteSession: drop the sessions whose id matches, and clear the active
session id when it was the deleted one. -/
def deleteSession (sessionId : String) (st : StoreState) : StoreState :=
  { sessions := st.sessions.filter (fun s => s.id ≠ sessionId),
    activeSessionId :=
      if st.activeSessionId = some sessionId then none else st.activeSessionId }

-- ==========================================================================
-- Backend supervisor (src/electron/main.js)
-- ==========================================================================

/-- The per-attempt timeout of checkHealth, in milliseconds
(req.setTimeout(2000, ...)). -/
def HEALTH_TIMEOUT_MS : Nat := 2000

/-- The pause between health poll attempts, in milliseconds
(setTimeout(r, 1000) inside waitForBackend). -/
def POLL_INTERVAL_MS : Nat := 1000

/-- The default number of health poll attempts (waitForBackend(attempts = 60)). -/
def MAX_ATTEMPTS : Nat := 60

/-- checkHealth: one liveness probe.  The probe function abstracts the HTTP
round trip of attempt i: it returns true exactly when the request against
/api/health answers with status 200 within the HEALTH_TIMEOUT_MS bound
(errors and timeouts resolve to false in the source). -/
def checkHealth (probe : Nat → Bool) (i : Nat) : Bool := probe i

/-- waitForBackendFrom probe i fuel: the polling loop of waitForBackend,
starting at attempt index i with fuel attempts remaining.  Returns whether a
probe succeeded together with the number of attempts issued. -/
def waitForBackendFrom (probe : Nat → Bool) : Nat → Nat → Bool × Nat
  | _, 0 => (false, 0)
  | i, fuel + 1 =>
    if checkHealth probe i then (true, 1)
    else
      let r := waitForBackendFrom probe (i + 1) fuel
      (r.1, r.2 + 1)

/-- waitForBackend: poll the health endpoint for up to MAX_ATTEMPTS attempts. -/
def waitForBackend (probe : Nat → Bool) : Bool × Nat :=
  waitForBackendFrom probe 0 MAX_ATTEMPTS

/-- The supervisor state of main.js: the module-level backendProcess handle,
plus ghost counters recording how many processes were ever spawned and how
many health probes were ever issued. -/
structure SupState where
  backendProcess : Option Nat
  spawnCount : Nat
  pollAttempts : Nat
deriving DecidableEq, Repr

/-- The initial supervisor state (backendProcess = null). -/
def initialSupState : SupState := ⟨none, 0, 0⟩

/-- The error message thrown by startBackend when the bundled Python
executable is missing. -/
def execNotFoundMsg (python : String) : String :=
  "Bundled Python not found at:\n" ++ python ++
    "\n\nRun  ./build_app.sh  to rebuild the application."

/-- startBackend: verify the executable exists (throwing execNotFoundMsg
otherwise), spawn the backend process, then poll until the backend is
healthy.  pythonExists abstracts fs.existsSync(python); the spawned process
is modelled by a fresh handle.  The pyvenv.cfg patching is a non-fatal side
effect on a file outside this state and is not modelled. -/
def startBackend (pythonPath : String) (pythonExists : Bool) (probe : Nat → Bool)
    (st : SupState) : SupState × Except String Bool :=
  if pythonExists then
    let w := waitForBackend probe
    ({ backendProcess := some st.spawnCount,
       spawnCount := st.spawnCount + 1,
       pollAttempts := st.pollAttempts + w.2 }, .ok w.1)
  else
    (st, .error (execNotFoundMsg pythonPath))

/-- The outcome of a start operation, as the spec names them. -/
inductive StartOutcome
  | Ready
  | StartupTimeout
  | ExecutableNotFound
deriving DecidableEq, Repr

/-- Map the result of startBackend to the spec-level outcome: a thrown error
is ExecutableNotFound, a false resolution reaches the startup-error dialog
(StartupTimeout), a true resolution opens the main window (Ready). -/
def startOutcome : Except String Bool → StartOutcome
  | .ok true => .Ready
  | .ok false => .StartupTimeout
  | .error _ => .ExecutableNotFound

/-- The app.whenReady startup sequence: startBackend is invoked exactly once
per application run, on the initial supervisor state. -/
def appStartup (pythonPath : String) (pythonExists : Bool) (probe : Nat → Bool) :
    SupState × Except String Bool :=
  startBackend pythonPath pythonExists probe initialSupState

-- ==========================================================================
-- Generation orchestrator (useGeneration hook)
-- ==========================================================================

/-- The clarify request timeout (CLARIFY_TIMEOUT = 30_000). -/
def CLARIFY_TIMEOUT : Nat := 30000

/-- The generate and iterate request timeout (GENERATE_TIMEOUT = 600_000). -/
def GENERATE_TIMEOUT : Nat := 600000

/-- One observable mutation performed by the orchestrator, in program order:
a message appended to the active session, a phase change, the preview data
signal, the artifact reference stored on the session, or the abort of the
current cancellation handle. -/
inductive GenEvent
  | msgAdded (m : ChatMessage)
  | phaseSet (p : GenerationPhase)
  | previewDataSet (p : Option PreviewData)
  | artifactStored (downloadId filename : String)
  | abortSignalled
deriving DecidableEq, Repr

/-- The System message appended by cancel. -/
def cancelledMessage : ChatMessage := { role := .system, content := "Generation cancelled." }

/-- cancel(): abort the current handle when one exists, set phase idle, and
append the System message when a session is active.  hasAbortHandle models
whether abortRef.current is non-null. -/
def cancelRun (hasAbortHandle : Bool) (activeSessionId : Option String) : List GenEvent :=
  (if hasAbortHandle then [GenEvent.abortSignalled] else []) ++
    [GenEvent.phaseSet .idle] ++
    (match activeSessionId with
     | some _ => [GenEvent.msgAdded cancelledMessage]
     | none => [])

/-- The response body of POST /api/clarify. -/
structure ClarifyResponse where
  needs_clarification : Bool
  questions : List ClarifyQuestion
deriving DecidableEq, Repr

/-- The outcome of the clarify network call: a resolved response, or any
rejection (HTTP error or 30s timeout). -/
inductive ClarifyOutcome
  | resolved (r : ClarifyResponse)
  | failed
deriving DecidableEq, Repr

/-- The Assistant message that surfaces clarifying questions. -/
def clarifyQuestionsMessage (qs : List ClarifyQuestion) : ChatMessage :=
  { role := .assistant,
    content := "I have a few questions to make your presentation better:",
    clarifyQuestions := some qs }

/-- clarify(): set phase clarifying, issue the request, and on a resolved
response that needs clarification with a non-empty question list append the
Assistant questions message and return the questions; otherwise (response
without questions, or any failure) return null with no message.  Returns the
event list paired with the returned questions. -/
def clarifyRun (activeSessionId : Option String) (o : ClarifyOutcome) :
    List GenEvent × Option (List ClarifyQuestion) :=
  match activeSessionId with
  | none => ([], none)
  | some _ =>
    match o with
    | .resolved r =>
      if r.needs_clarification ∧ r.questions.length > 0 then
        ([GenEvent.phaseSet .clarifying,
          GenEvent.msgAdded (clarifyQuestionsMessage r.questions)], some r.questions)
      else ([GenEvent.phaseSet .clarifying], none)
    | .failed => ([GenEvent.phaseSet .clarifying], none)

/-- The response body of POST /api/generate and /api/generate-iterate. -/
structure GenerateResponse where
  download_id : String
  filename : String
  quality_history : List QualityLoopEntry
deriving DecidableEq, Repr

/-- The outcome of the main generate or iterate request:
success, cancellation by the abort handle, an axios error carrying a
response detail, the ECONNABORTED timeout, or any other failure. -/
inductive MainOutcome
  | success (r : GenerateResponse)
  | cancelled
  | httpDetail (detail : String)
  | timedOut
  | failedOther
deriving DecidableEq, Repr

/-- The outcome of the best-effort preview-info fetch: a resolved
total_slides count, a failure, or rejection because cancel aborted it.
The source swallows every rejection of this request alike. -/
inductive PreviewFetchOutcome
  | ok (total_slides : Nat)
  | failed
  | cancelledByAbort
deriving DecidableEq, Repr

/-- The thinking messages appended for a quality report history. -/
def thinkingMessages (history : List QualityLoopEntry) : List GenEvent :=
  history.map fun e =>
    GenEvent.msgAdded { role := .thinking, content := e.reasoning, thinkingData := some e }

/-- The totalSlides value computed from the preview fetch
(previewRes.data.total_slides on success, 0 on any rejection). -/
def totalSlidesOf : PreviewFetchOutcome → Nat
  | .ok n => n
  | .failed => 0
  | .cancelledByAbort => 0

/-- The preview message of generate. -/
def previewMessage (p : PreviewData) : ChatMessage :=
  { role := .preview,
    content := "Your presentation \"" ++ p.filename ++ "\" is ready!",
    previewData := some p }

/-- The preview message of iterate. -/
def iteratePreviewMessage (p : PreviewData) : ChatMessage :=
  { role := .preview,
    content := "Updated presentation \"" ++ p.filename ++ "\" is ready!",
    previewData := some p }

/-- The commit block shared by the success path of generate and iterate:
set phase converting, run the preview fetch, publish the preview data,
append the preview message, store the artifact reference on the session,
and set phase done. -/
def commitEvents (mkPreviewMsg : PreviewData → ChatMessage) (r : GenerateResponse)
    (pv : PreviewFetchOutcome) : List GenEvent :=
  let p : PreviewData := ⟨r.download_id, r.filename, totalSlidesOf pv⟩
  [GenEvent.phaseSet .converting,
   GenEvent.previewDataSet (some p),
   GenEvent.msgAdded (mkPreviewMsg p),
   GenEvent.artifactStored r.download_id r.filename,
   GenEvent.phaseSet .done]

/-- The error detail string computed in the catch block of generate. -/
def generateErrorDetail : MainOutcome → String
  | .httpDetail d => d
  | .timedOut => "Generation timed out. Please try a shorter prompt."
  | _ => "Generation failed. Please try again."

/-- The error detail string computed in the catch block of iterate
(iterate has no timeout-specific branch). -/
def iterateErrorDetail : MainOutcome → String
  | .httpDetail d => d
  | _ => "Iteration failed. Please try again."

/-- The initial Assistant message of generate. -/
def generatingMessage : ChatMessage :=
  { role := .assistant, content := "Generating your presentation..." }

/-- The initial Assistant message of iterate. -/
def iteratingMessage : ChatMessage :=
  { role := .assistant, content := "Updating your presentation based on feedback..." }

/-- generate(): with no active session return immediately; otherwise set
phase generating, append the initial Assistant message, and dispatch on the
outcome of the main request.  Cancellation returns silently (axios.isCancel);
success appends the thinking messages and runs the commit block; every other
failure appends one Assistant error message and sets phase error. -/
def generateRun (activeSessionId : Option String) (main : MainOutcome)
    (pv : PreviewFetchOutcome) : List GenEvent :=
  match activeSessionId with
  | none => []
  | some _ =>
    [GenEvent.phaseSet .generating, GenEvent.msgAdded generatingMessage] ++
      match main with
      | .success r => thinkingMessages r.quality_history ++ commitEvents previewMessage r pv
      | .cancelled => []
      | e => [GenEvent.msgAdded
                { role := .assistant, content := "Error: " ++ generateErrorDetail e },
              GenEvent.phaseSet .error]

/-- iterate(): same structure as generate with its own strings. -/
def iterateRun (activeSessionId : Option String) (main : MainOutcome)
    (pv : PreviewFetchOutcome) : List GenEvent :=
  match activeSessionId with
  | none => []
  | some _ =>
    [GenEvent.phaseSet .generating, GenEvent.msgAdded iteratingMessage] ++
      match main with
      | .success r => thinkingMessages r.quality_history ++ commitEvents iteratePreviewMessage r pv
      | .cancelled => []
      | e => [GenEvent.msgAdded
                { role := .assistant, content := "Error: " ++ iterateErrorDetail e },
              GenEvent.phaseSet .error]

-- ==========================================================================
-- Applying orchestrator events to the observable state
-- ==========================================================================

/-- The combined observable state the orchestrator mutates: the session
store, the phase, and the published preview data. -/
structure OrchestratorState where
  sessions : List ChatSession
  phase : GenerationPhase
  previewData : Option PreviewData
deriving DecidableEq, Repr

/-- Apply one orchestrator event for the active session sid. -/
def applyEvent (sid : String) (now : Nat) (st : OrchestratorState) :
    GenEvent → OrchestratorState
  | .msgAdded m => { st with sessions := addMessage sid m now st.sessions }
  | .phaseSet p => { st with phase := p }
  | .previewDataSet p => { st with previewData := p }
  | .artifactStored d f => { st with sessions := updateSessionArtifact sid d f now st.sessions }
  | .abortSignalled => st

/-- Apply a list of orchestrator events in program order. -/
def applyEvents (sid : String) (now : Nat) (st : OrchestratorState)
    (evs : List GenEvent) : OrchestratorState :=
  evs.foldl (applyEvent sid now) st

-- ==========================================================================
-- The handleGenerate driver (ChatLayout.tsx)
-- ==========================================================================

/-- The user message appended by handleGenerate (attachments omitted). -/
def userMessage (promptText : String) : ChatMessage :=
  { role := .user, content := promptText }

/-- The result of one handleGenerate turn: the events performed, whether
generate() was invoked, and whether the pendingClarify flag was set. -/
structure HandleGenerateRun where
  events : List GenEvent
  generateInvoked : Bool
  pendingClarifySet : Bool
deriving DecidableEq, Repr

/-- handleGenerate: guard on an active session and selected template, append
the user message; when answering pending clarification questions, invoke
generate with the merged answers; otherwise clarify first, and only when it
returned a non-empty question list stop the turn (setting pendingClarify),
else fall through to generate. -/
def handleGenerateRun (activeSessionId : Option String) (hasTemplate : Bool)
    (pendingClarify : Bool) (promptText : String) (co : ClarifyOutcome)
    (main : MainOutcome) (pv : PreviewFetchOutcome) : HandleGenerateRun :=
  match activeSessionId with
  | none => ⟨[], false, false⟩
  | some sid =>
    if hasTemplate then
      let userEv := [GenEvent.msgAdded (userMessage promptText)]
      if pendingClarify then
        ⟨userEv ++ generateRun (some sid) main pv, true, false⟩
      else
        let c := clarifyRun (some sid) co
        match c.2 with
        | some qs =>
          if qs.length > 0 then ⟨userEv ++ c.1, false, true⟩
          else ⟨userEv ++ c.1 ++ generateRun (some sid) main pv, true, false⟩
        | none => ⟨userEv ++ c.1 ++ generateRun (some sid) main pv, true, false⟩
    else ⟨[], false, false⟩

-- ==========================================================================
-- Cancellation arriving mid-flight (interleaved traces)
-- ==========================================================================

/-- The trace of observable mutations when cancel() is invoked while the
main generate request is awaiting (phase generating): the abort makes the
request reject, axios.isCancel short-circuits the catch block, and the
routine performs nothing further. -/
def generateCancelDuringGeneratingTrace (sid : String) : List GenEvent :=
  [GenEvent.phaseSet .generating, GenEvent.msgAdded generatingMessage] ++
    cancelRun true (some sid)

/-- The trace of observable mutations when cancel() is invoked while the
preview-info fetch is awaiting (phase converting): the abort makes that
fetch reject, but its failure is swallowed by the inner catch, so the
routine continues with the commit block after the cancellation events. -/
def generateCancelDuringConvertingTrace (sid : String) (r : GenerateResponse) :
    List GenEvent :=
  [GenEvent.phaseSet .generating, GenEvent.msgAdded generatingMessage] ++
    thinkingMessages r.quality_history ++
    [GenEvent.phaseSet .converting] ++
    cancelRun true (some sid) ++
    (let p : PreviewData := ⟨r.download_id, r.filename, totalSlidesOf .cancelledByAbort⟩
     [GenEvent.previewDataSet (some p),
      GenEvent.msgAdded (previewMessage p),
      GenEvent.artifactStored r.download_id r.filename,
      GenEvent.phaseSet .done])

-- ==========================================================================
-- Network request configurations (timeouts per call site)
-- ==========================================================================

/-- The transport-level configuration of one network call site: its explicit
timeout option and whether an abort signal is attached. -/
structure RequestSpec where
  endpoint : String
  timeoutMs : Option Nat
  abortable : Bool
deriving DecidableEq, Repr

/-- axios.post /api/clarify with timeout CLARIFY_TIMEOUT and no signal. -/
def clarifyRequest : RequestSpec := ⟨"/api/clarify", some CLARIFY_TIMEOUT, false⟩

/-- axios.post /api/generate with timeout GENERATE_TIMEOUT and the abort signal. -/
def generateRequest : RequestSpec := ⟨"/api/generate", some GENERATE_TIMEOUT, true⟩

/-- axios.post /api/generate-iterate with timeout GENERATE_TIMEOUT and the signal. -/
def iterateMainRequest : RequestSpec := ⟨"/api/generate-iterate", some GENERATE_TIMEOUT, true⟩

/-- axios.get of the preview info inside generate and iterate: only the abort
signal is passed, no timeout option. -/
def previewInfoRequest : RequestSpec := ⟨"/api/preview/:id/info", none, true⟩

/-- The bare fetch of the preview info on session switch in ChatLayout:
neither a timeout nor a signal. -/
def sessionSwitchPreviewRequest : RequestSpec := ⟨"/api/preview/:id/info", none, false⟩

/-- http.get /api/health with req.setTimeout(HEALTH_TIMEOUT_MS). -/
def healthRequest : RequestSpec := ⟨"/api/health", some HEALTH_TIMEOUT_MS, false⟩

/-- Every network call site of the orchestrator and the supervisor. -/
def allNetworkRequests : List RequestSpec :=
  [clarifyRequest, generateRequest, iterateMainRequest,
   previewInfoRequest, sessionSwitchPreviewRequest, healthRequest]

-- ==========================================================================
-- Event classifiers
-- ==========================================================================

/-- Does the event set the phase to done? -/
def isDoneEvent : GenEvent → Bool
  | .phaseSet .done => true
  | _ => false

/-- Does the event set the phase to idle? -/
def isIdleEvent : GenEvent → Bool
  | .phaseSet .idle => true
  | _ => false

/-- Does the event store an artifact reference on the session? -/
def isArtifactStored : GenEvent → Bool
  | .artifactStored _ _ => true
  | _ => false

/-- Does the event append a preview-role message? -/
def isPreviewMsg : GenEvent → Bool
  | .msgAdded m => m.role = .preview
  | _ => false

/-- Does the event append any message? -/
def isMsgAdded : GenEvent → Bool
  | .msgAdded _ => true
  | _ => false

/-- Does the event append an Assistant message? -/
def isAssistantMsg : GenEvent → Bool
  | .msgAdded m => m.role = .assistant
  | _ => false

/-- Does the event append the Assistant message carrying the
timeout-specific cause string of generate? -/
def isTimeoutErrorMsg : GenEvent → Bool
  | .msgAdded m =>
    m.role = .assistant ∧
      m.content = "Error: Generation timed out. Please try a shorter prompt."
  | _ => false

-- ==========================================================================
-- Sample data for witnesses and counterexamples
-- ==========================================================================

/-- Default settings of a fresh session. -/
def sampleSettings : SessionSettings :=
  { templateId := none, templateName := none, purpose := "business", language := "de" }

/-- A sample session used by concrete witnesses. -/
def demoSession : ChatSession :=
  { id := "s1", title := "Quarterly", createdAt := 0, updatedAt := 0,
    messages := [], settings := sampleSettings,
    lastDownloadId := some "old", lastFilename := some "Old.pptx" }

/-- A second sample session. -/
def demoSessionB : ChatSession :=
  { id := "s2", title := "Other", createdAt := 0, updatedAt := 0,
    messages := [], settings := sampleSettings }

/-- A sample generate response. -/
def demoResponse : GenerateResponse :=
  { download_id := "abc", filename := "Q3.pptx", quality_history := [] }

/-- A sample clarifying question. -/
def sampleQuestion : ClarifyQuestion :=
  { id := "q1", question := "Which audience?", hint := "e.g. executives" }

-- ==========================================================================
-- Helper lemmas
-- ==========================================================================

theorem thinkingMessages_any_artifact (h : List QualityLoopEntry) :
    (thinkingMessages h).any isArtifactStored = false := by
  simp [thinkingMessages, isArtifactStored]

theorem thinkingMessages_any_done (h : List QualityLoopEntry) :
    (thinkingMessages h).any isDoneEvent = false := by
  simp [thinkingMessages, isDoneEvent]

theorem thinkingMessages_any_idle (h : List QualityLoopEntry) :
    (thinkingMessages h).any isIdleEvent = false := by
  simp [thinkingMessages, isIdleEvent]

theorem thinkingMessages_any_preview (h : List QualityLoopEntry) :
    (thinkingMessages h).any isPreviewMsg = false := by
  simp [thinkingMessages, isPreviewMsg]

/-- addMessage changes only the messages, updatedAt and title fields. -/
theorem addMessage_map_artifact (sid : String) (m : ChatMessage) (now : Nat)
    (ss : List ChatSession) :
    (addMessage sid m now ss).map (fun s => (s.lastDownloadId, s.lastFilename)) =
      ss.map (fun s => (s.lastDownloadId, s.lastFilename)) := by
  induction ss with
  | nil => rfl
  | cons s t ih =>
    simp only [addMessage, List.map_cons] at *
    refine congrArg₂ _ ?_ ih
    split <;> [split <;> rfl; rfl]

/-- Applying events that never store an artifact leaves every lastDownloadId
and lastFilename of the store unchanged. -/
theorem applyEvents_artifact_frame (sid : String) (now : Nat) :
    ∀ (evs : List GenEvent) (st : OrchestratorState),
      evs.any isArtifactStored = false →
      (applyEvents sid now st evs).sessions.map
          (fun s => (s.lastDownloadId, s.lastFilename)) =
        st.sessions.map (fun s => (s.lastDownloadId, s.lastFilename)) := by
  intro evs
  induction evs with
  | nil => intro st _; rfl
  | cons e t ih =>
    intro st h
    simp only [List.any_cons, Bool.or_eq_false_iff] at h
    have ht := ih (applyEvent sid now st e) h.2
    rw [applyEvents, List.foldl_cons, ← applyEvents, ht]
    cases e with
    | msgAdded m => simp [applyEvent, addMessage_map_artifact]
    | phaseSet p => rfl
    | previewDataSet p => rfl
    | artifactStored d f => simp [isArtifactStored] at h
    | abortSignalled => rfl

-- ==========================================================================
-- Claim theorems
-- ==========================================================================

/-- Claim C8: startBackend verifies the backend executable exists before
spawning; when it does not, it fails fast with an error naming the expected
path and a remediation hint, without spawning a process or issuing any
health probe. -/
theorem startBackend_missing_exec (pythonPath : String) (probe : Nat → Bool)
    (st : SupState) :
    (startBackend pythonPath false probe st).2 = .error (execNotFoundMsg pythonPath) ∧
    startOutcome (startBackend pythonPath false probe st).2 = .ExecutableNotFound ∧
    (startBackend pythonPath false probe st).1 = st ∧
    (∃ pre mid suf : String,
      execNotFoundMsg pythonPath =
        pre ++ pythonPath ++ (mid ++ ("./build_app.sh" ++ suf))) := by
  refine ⟨rfl, rfl, rfl,
    ⟨"Bundled Python not found at:\n", "\n\nRun  ", "  to rebuild the application.", ?_⟩⟩
  show "Bundled Python not found at:\n" ++ pythonPath ++
      "\n\nRun  ./build_app.sh  to rebuild the application." = _
  refine congrArg _ ?_
  rfl

/-- Claim C9: cancel() with no operation in flight (null abort handle,
phase Idle, Done or Error) is not a no-op: it still sets the phase to Idle
and appends the cancellation System message to the active session. -/
theorem cancel_not_noop (sess : ChatSession) (p : GenerationPhase)
    (pd : Option PreviewData) (now : Nat)
    (hp : p = .idle ∨ p = .done ∨ p = .error) :
    applyEvents sess.id now ⟨[sess], p, pd⟩ (cancelRun false (some sess.id)) =
      ⟨[{ sess with messages := sess.messages ++ [cancelledMessage], updatedAt := now }],
        .idle, pd⟩ ∧
    (cancelRun false (some sess.id)).any isMsgAdded = true := by
  constructor
  · simp [applyEvents, applyEvent, cancelRun, addMessage, cancelledMessage]
  · simp [cancelRun, isMsgAdded]

/-- Witness for cancel_not_noop at a concrete session in phase Done. -/
theorem cancel_not_noop_witness :
    applyEvents demoSession.id 7 ⟨[demoSession], .done, none⟩
        (cancelRun false (some demoSession.id)) =
      ⟨[{ demoSession with
            messages := demoSession.messages ++ [cancelledMessage], updatedAt := 7 }],
        .idle, none⟩ ∧
    (cancelRun false (some demoSession.id)).any isMsgAdded = true :=
  cancel_not_noop demoSession .done none 7 (Or.inr (Or.inl rfl))

/-- Claim C10: deleteSession removes exactly the sessions bearing the given
id, keeps every other session record unchanged and in order, and clears the
active session id exactly when the deleted session was the active one. -/
theorem deleteSession_frame (sessionId : String) (st : StoreState) :
    (∀ s : ChatSession,
        s ∈ (deleteSession sessionId st).sessions ↔ s ∈ st.sessions ∧ s.id ≠ sessionId) ∧
    (deleteSession sessionId st).sessions.Sublist st.sessions ∧
    (st.activeSessionId = some sessionId →
      (deleteSession sessionId st).activeSessionId = none) ∧
    (st.activeSessionId ≠ some sessionId →
      (deleteSession sessionId st).activeSessionId = st.activeSessionId) := by
  refine ⟨fun s => ?_, ?_, fun h => ?_, fun h => ?_⟩
  · simp [deleteSession, List.mem_filter]
  · exact List.filter_sublist _
  · simp [deleteSession, h]
  · simp [deleteSession, h]

/-- Witness for deleteSession_frame: deleting the active session keeps the
other session and clears the active id. -/
theorem deleteSession_frame_witness :
    demoSessionB ∈ (deleteSession "s1" ⟨[demoSession, demoSessionB], some "s1"⟩).sessions ∧
    (deleteSession "s1" ⟨[demoSession, demoSessionB], some "s1"⟩).activeSessionId = none := by
  refine ⟨((deleteSession_frame "s1" ⟨[demoSession, demoSessionB], some "s1"⟩).1
      demoSessionB).2 ⟨by decide, by decide⟩,
    (deleteSession_frame "s1" ⟨[demoSession, demoSessionB], some "s1"⟩).2.2.1 rfl⟩

/-- If every probe in the polled window fails, the polling loop exhausts its
fuel and reports failure after fuel attempts. -/
theorem waitForBackendFrom_all_false (probe : Nat → Bool) :
    ∀ (fuel i : Nat), (∀ j, i ≤ j → j < i + fuel → probe j = false) →
      waitForBackendFrom probe i fuel = (false, fuel) := by
  intro fuel
  induction fuel with
  | zero => intro i _; rfl
  | succ n ih =>
    intro i h
    have h0 : probe i = false := h i le_rfl (by omega)
    have hrec := ih (i + 1) (fun j hj1 hj2 => h j (by omega) (by omega))
    simp [waitForBackendFrom, checkHealth, h0, hrec]

/-- If some probe in the polled window succeeds, the polling loop reports
success. -/
theorem waitForBackendFrom_success (probe : Nat → Bool) :
    ∀ (fuel i k : Nat), i ≤ k → k < i + fuel → probe k = true →
      (waitForBackendFrom probe i fuel).1 = true := by
  intro fuel
  induction fuel with
  | zero => intro i k h1 h2 _; omega
  | succ n ih =>
    intro i k h1 h2 hk
    by_cases hpi : probe i = true
    · simp [waitForBackendFrom, checkHealth, hpi]
    · have hik : i ≠ k := fun he => hpi (he ▸ hk)
      have := ih (i + 1) k (by omega) (by omega) hk
      simp [waitForBackendFrom, checkHealth, hpi, this]

/-- Claim C3: health polling issues up to 60 attempts, each bounded by a
2-second timeout at a 1-second spacing; when no probe returns 200 within the
60 attempts, start resolves StartupTimeout and never Ready, and when an
attempt k within the 60 succeeds, start resolves Ready with exactly one
spawn having occurred. -/
theorem startup_polling_outcome (pythonPath : String) (probe : Nat → Bool)
    (st : SupState) :
    HEALTH_TIMEOUT_MS = 2000 ∧ POLL_INTERVAL_MS = 1000 ∧ MAX_ATTEMPTS = 60 ∧
    ((∀ i, i < MAX_ATTEMPTS → checkHealth probe i = false) →
      startOutcome (startBackend pythonPath true probe st).2 = .StartupTimeout ∧
      startOutcome (startBackend pythonPath true probe st).2 ≠ .Ready) ∧
    (∀ k, k < MAX_ATTEMPTS → checkHealth probe k = true →
      startOutcome (startBackend pythonPath true probe st).2 = .Ready ∧
      (startBackend pythonPath true probe st).1.spawnCount = st.spawnCount + 1) ∧
    (appStartup pythonPath true probe).1.spawnCount = 1 := by
  refine ⟨rfl, rfl, rfl, fun h => ?_, fun k hk hpk => ?_, rfl⟩
  · have hall : waitForBackendFrom probe 0 60 = (false, 60) :=
      waitForBackendFrom_all_false probe 60 0 (fun j _ hj => h j hj)
    constructor
    · simp [startBackend, waitForBackend, MAX_ATTEMPTS, hall, startOutcome]
    · simp [startBackend, waitForBackend, MAX_ATTEMPTS, hall, startOutcome]
  · have hk60 : k < 60 := by simpa [MAX_ATTEMPTS] using hk
    have hone : (waitForBackendFrom probe 0 60).1 = true :=
      waitForBackendFrom_success probe 60 0 k (Nat.zero_le k) (by omega) hpk
    constructor
    · simp [startBackend, waitForBackend, MAX_ATTEMPTS, startOutcome]
      simp [hone]
    · simp [startBackend]

/-- Witness for startup_polling_outcome: a probe that succeeds on attempt
index 37 makes start resolve Ready with one spawn, and a probe that never
succeeds makes start resolve StartupTimeout. -/
theorem startup_polling_outcome_witness :
    (startOutcome (startBackend "/p" true (fun i => decide (i = 37)) initialSupState).2
        = .Ready ∧
      (startBackend "/p" true (fun i => decide (i = 37)) initialSupState).1.spawnCount = 1) ∧
    startOutcome (startBackend "/p" true (fun _ => false) initialSupState).2
        = .StartupTimeout := by
  have h1 := (startup_polling_outcome "/p" (fun i => decide (i = 37)) initialSupState).2.2.2.2.1
    37 (by decide) (by decide)
  have h2 := ((startup_polling_outcome "/p" (fun _ => false) initialSupState).2.2.2.1
    (fun i _ => rfl)).1
  exact ⟨⟨h1.1, by simpa [initialSupState] using h1.2⟩, h2⟩

/-- Claim C4: the artifact reference stored on the session is updated if and
only if the generate or iterate run reaches phase Done; the generate timeout
ends in phase Error with exactly one Assistant message carrying the
timeout-specific cause string, and leaves the stored artifact reference of
every session unchanged. -/
theorem artifact_update_iff_done (sid : String) (main : MainOutcome)
    (pv : PreviewFetchOutcome) (st : OrchestratorState) (now : Nat) :
    ((generateRun (some sid) main pv).any isArtifactStored =
      (generateRun (some sid) main pv).any isDoneEvent) ∧
    ((iterateRun (some sid) main pv).any isArtifactStored =
      (iterateRun (some sid) main pv).any isDoneEvent) ∧
    (generateRun (some sid) .timedOut pv).countP isTimeoutErrorMsg = 1 ∧
    ((applyEvents sid now st (generateRun (some sid) .timedOut pv)).sessions.map
        (fun s => (s.lastDownloadId, s.lastFilename)) =
      st.sessions.map (fun s => (s.lastDownloadId, s.lastFilename))) ∧
    (applyEvents sid now st (generateRun (some sid) .timedOut pv)).phase = .error := by
  refine ⟨?_, ?_, rfl, ?_, rfl⟩
  · cases main <;>
      simp [generateRun, commitEvents, List.any_append, isArtifactStored, isDoneEvent,
        thinkingMessages_any_artifact, thinkingMessages_any_done]
  · cases main <;>
      simp [iterateRun, commitEvents, List.any_append, isArtifactStored, isDoneEvent,
        thinkingMessages_any_artifact, thinkingMessages_any_done]
  · exact applyEvents_artifact_frame sid now _ st rfl

/-- Claim C5: a clarify call resolving with needs_clarification false is
observably identical to a clarify call that fails or times out: neither
appends a message, and a handleGenerate turn behaves the same in both cases,
falling through to an immediate generate invocation. -/
theorem clarify_no_questions_equiv_failure (sid : String) (qs : List ClarifyQuestion)
    (promptText : String) (main : MainOutcome) (pv : PreviewFetchOutcome) :
    clarifyRun (some sid) (.resolved ⟨false, qs⟩) = clarifyRun (some sid) .failed ∧
    ((clarifyRun (some sid) (.resolved ⟨false, qs⟩)).1.any isMsgAdded = false) ∧
    handleGenerateRun (some sid) true false promptText (.resolved ⟨false, qs⟩) main pv =
      handleGenerateRun (some sid) true false promptText .failed main pv ∧
    (handleGenerateRun (some sid) true false promptText
        (.resolved ⟨false, qs⟩) main pv).generateInvoked = true := by
  refine ⟨?_, ?_, ?_, ?_⟩ <;>
    simp [clarifyRun, handleGenerateRun, isMsgAdded]

/-- Counterexample to claim C1 as stated: when cancel() is invoked while the
preview-info fetch of a generate operation is awaiting (phase Converting),
the swallowed abort does not stop the commit: the run still ends in phase
Done, the artifact reference of the session is updated, and a preview
message is appended, despite the cancellation System message. -/
theorem cancel_late_response_counterexample :
    (applyEvents "s1" 2 ⟨[demoSession], .idle, none⟩
        (generateCancelDuringConvertingTrace "s1" demoResponse)).phase = .done ∧
    ((applyEvents "s1" 2 ⟨[demoSession], .idle, none⟩
        (generateCancelDuringConvertingTrace "s1" demoResponse)).sessions.map
      (fun s => s.lastDownloadId)) = [some "abc"] ∧
    (generateCancelDuringConvertingTrace "s1" demoResponse).any isPreviewMsg = true ∧
    GenEvent.msgAdded cancelledMessage ∈
      generateCancelDuringConvertingTrace "s1" demoResponse := by
  decide

/-- Claim C1 amended: cancel() sets the phase to Idle and appends the
cancellation System message; when the abort lands on the main generate
request (phase Generating), the cancelled response produces no further
mutation — no preview message, no Done phase, no artifact update; but when
the abort lands on the preview-info fetch (phase Converting), the operation
still commits: the preview message is appended, the artifact reference is
stored, and the phase moves to Done. -/
theorem cancel_semantics_amended (sid : String) (r : GenerateResponse)
    (pv : PreviewFetchOutcome) (st : OrchestratorState) (now : Nat) :
    (cancelRun true (some sid) =
      [GenEvent.abortSignalled, GenEvent.phaseSet .idle,
       GenEvent.msgAdded cancelledMessage]) ∧
    ((generateCancelDuringGeneratingTrace sid).any isPreviewMsg = false ∧
     (generateCancelDuringGeneratingTrace sid).any isDoneEvent = false ∧
     (generateCancelDuringGeneratingTrace sid).any isArtifactStored = false ∧
     (applyEvents sid now st (generateCancelDuringGeneratingTrace sid)).phase = .idle) ∧
    (generateRun (some sid) .cancelled pv =
      [GenEvent.phaseSet .generating, GenEvent.msgAdded generatingMessage]) ∧
    (iterateRun (some sid) .cancelled pv =
      [GenEvent.phaseSet .generating, GenEvent.msgAdded iteratingMessage]) ∧
    ((generateCancelDuringConvertingTrace sid r).any isArtifactStored = true ∧
     (generateCancelDuringConvertingTrace sid r).any isPreviewMsg = true ∧
     (applyEvents sid now st (generateCancelDuringConvertingTrace sid r)).phase = .done) ∧
    clarifyRequest.abortable = false := by
  refine ⟨rfl, ⟨rfl, rfl, rfl, rfl⟩, rfl, rfl, ⟨?_, ?_, ?_⟩, rfl⟩
  · simp [generateCancelDuringConvertingTrace, List.any_append, cancelRun,
      thinkingMessages_any_artifact, isArtifactStored]
  · simp [generateCancelDuringConvertingTrace, List.any_append, cancelRun,
      thinkingMessages_any_preview, isPreviewMsg, cancelledMessage, generatingMessage,
      previewMessage]
  · simp only [generateCancelDuringConvertingTrace, applyEvents, List.foldl_append]
    rfl

/-- Counterexample to claim C2 as stated: startBackend carries no
idempotency guard — after a first call has resolved Ready, a second call
spawns a second backend process. -/
theorem start_idempotency_counterexample :
    startOutcome (startBackend "/p/python3" true (fun _ => true) initialSupState).2
        = .Ready ∧
    (startBackend "/p/python3" true (fun _ => true)
        (startBackend "/p/python3" true (fun _ => true) initialSupState).1).1.spawnCount
      = 2 ∧
    (startBackend "/p/python3" true (fun _ => true)
          (startBackend "/p/python3" true (fun _ => true) initialSupState).1).1.backendProcess
      ≠ (startBackend "/p/python3" true (fun _ => true) initialSupState).1.backendProcess := by
  decide

/-- Claim C2 amended: startBackend itself spawns a fresh process on every
call, but the application invokes it exactly once per run (from the
whenReady handler), so a program run spawns at most one backend process —
exactly one when the executable exists. -/
theorem app_single_spawn (pythonPath : String) (pythonExists : Bool)
    (probe : Nat → Bool) :
    (appStartup pythonPath pythonExists probe).1.spawnCount ≤ 1 ∧
    (appStartup pythonPath true probe).1.spawnCount = 1 := by
  cases pythonExists <;> simp [appStartup, startBackend, initialSupState]

/-- Counterexample to claim C6 as stated: when clarify resolves with
questions, no transition to Idle occurs — the run leaves the phase at
Clarifying. -/
theorem clarify_questions_counterexample :
    ((handleGenerateRun (some "s1") true false "Quarterly review"
        (.resolved ⟨true, [sampleQuestion]⟩) .cancelled .failed).events.any isIdleEvent
      = false) ∧
    (applyEvents "s1" 1 ⟨[demoSession], .idle, none⟩
        (handleGenerateRun (some "s1") true false "Quarterly review"
          (.resolved ⟨true, [sampleQuestion]⟩) .cancelled .failed).events).phase
      = .clarifying := by
  decide

/-- Claim C6 amended: when clarify resolves with questions present, the turn
appends exactly the user message and one Assistant message carrying the
questions, generate() is not invoked, the pendingClarify flag is set so the
caller must re-submit with a merged answer payload — and the phase remains
Clarifying (it is not reset to Idle). -/
theorem clarify_questions_surface (sid promptText : String) (q : ClarifyQuestion)
    (rest : List ClarifyQuestion) (main : MainOutcome) (pv : PreviewFetchOutcome) :
    (handleGenerateRun (some sid) true false promptText
        (.resolved ⟨true, q :: rest⟩) main pv).events =
      [GenEvent.msgAdded (userMessage promptText),
       GenEvent.phaseSet .clarifying,
       GenEvent.msgAdded (clarifyQuestionsMessage (q :: rest))] ∧
    (handleGenerateRun (some sid) true false promptText
        (.resolved ⟨true, q :: rest⟩) main pv).generateInvoked = false ∧
    (handleGenerateRun (some sid) true false promptText
        (.resolved ⟨true, q :: rest⟩) main pv).pendingClarifySet = true ∧
    ((handleGenerateRun (some sid) true false promptText
        (.resolved ⟨true, q :: rest⟩) main pv).events.any isIdleEvent = false) := by
  refine ⟨?_, ?_, ?_, ?_⟩ <;>
    simp [handleGenerateRun, clarifyRun, isIdleEvent, userMessage, clarifyQuestionsMessage]

/-- Counterexample to claim C7 as stated: the preview-info fetch issued
inside generate and iterate carries no explicit timeout (only the abort
signal), so not every network call is issued with an explicit finite
timeout. -/
theorem request_timeouts_counterexample :
    previewInfoRequest ∈ allNetworkRequests ∧
    previewInfoRequest.timeoutMs = none ∧
    ¬ (∀ r ∈ allNetworkRequests, r.timeoutMs.isSome = true) := by
  decide

/-- Claim C7 amended: the clarify, generate, iterate and health-probe calls
carry explicit finite timeouts (30s, 600s, 600s, 2s respectively), but the
two preview-info fetches carry none: the one inside generate and iterate is
bounded only by the cancellation signal, and the session-switch fetch has
neither a timeout nor a signal. -/
theorem request_timeouts_amended :
    clarifyRequest.timeoutMs = some 30000 ∧
    generateRequest.timeoutMs = some 600000 ∧
    iterateMainRequest.timeoutMs = some 600000 ∧
    healthRequest.timeoutMs = some 2000 ∧
    previewInfoRequest.timeoutMs = none ∧
    previewInfoRequest.abortable = true ∧
    sessionSwitchPreviewRequest.timeoutMs = none ∧
    sessionSwitchPreviewRequest.abortable = false ∧
    (∀ r ∈ allNetworkRequests,
      r.timeoutMs.isSome = true ∨ r.endpoint = "/api/preview/:id/info") := by
  decide

end PitchCraft
